import Mathlib

/-!
Shallow embedding of the battery-monitor daemon (src/main.rs) for checking
its natural-language specification.

Modelling conventions:
* `f32` percentages are modelled as exact rationals: the program never does
  arithmetic on them, it only compares them field-wise for (in)equality.
* External fallible calls (`serde_json::to_string`, `gethostname`,
  `battery::Manager::new`, `manager.batteries()`, each `dev?`, the MQTT
  `publish`, the event-loop `poll`) are modelled by passing their results
  (or a result-producing oracle) as arguments.
* A Rust `panic!` is modelled as a distinguished non-`ok` outcome.
-/

/-- Battery charge state, from the battery crate's `State` enum as re-exported
by `StateDef` in main.rs.  The `__Nonexhaustive` marker variant is not
constructible and is omitted. -/
inductive State where
  | Unknown
  | Charging
  | Discharging
  | Empty
  | Full
deriving DecidableEq, Repr

/-- `ChargeInfo` from main.rs: a sampled reading.  The `f32` percentage is
modelled as an exact rational (it is only ever compared for equality). -/
structure ChargeInfo where
  percentage : ℚ
  state : State
deriving DecidableEq, Repr

/-- `Message` from main.rs, as assembled by `MessageBuilder`. -/
structure Message where
  topic : String
  payload : String
  retain : Bool
deriving DecidableEq, Repr

/-- `DiscoveryDevice` from main.rs. -/
inductive DiscoveryDevice where
  | BinarySensor
  | Sensor
  | NoneType
deriving DecidableEq, Repr

/-- The `Display` impl for `DiscoveryDevice` (main.rs lines 197-205). -/
def DiscoveryDevice.toStr : DiscoveryDevice → String
  | .BinarySensor => "binary_sensor"
  | .Sensor => "sensor"
  | .NoneType => "none"

/-- `NodeID` from main.rs. -/
inductive NodeID where
  | Empty
  | Is (id : String)
deriving DecidableEq, Repr

/-- `DiscoveryTopic` from main.rs.  The source field `discovery_prefix` is
renamed `discPre`, `node_id` is `nodeId` and `object_id` is `objectId`. -/
structure DiscoveryTopic where
  discPre : String
  comp : DiscoveryDevice
  nodeId : NodeID
  objectId : String
deriving DecidableEq, Repr

/-- The `Display` impl for `DiscoveryTopic` (main.rs lines 129-144).  Note that
in the `NodeID::Is` branch the code interpolates the node id BEFORE the
component kind. -/
def DiscoveryTopic.toStr (t : DiscoveryTopic) : String :=
  match t.nodeId with
  | .Empty => t.discPre ++ "/" ++ t.comp.toStr ++ "/" ++ t.objectId ++ "/config"
  | .Is id => t.discPre ++ "/" ++ id ++ "/" ++ t.comp.toStr ++ "/" ++ t.objectId ++ "/config"

/-- `DiscoveryTopicBuilder::new` (main.rs lines 153-170): the result of
`gethostname().into_string()` is passed as `host`; on failure the object id
falls back to the empty string. -/
def discoveryTopicNew (host : Option String) : DiscoveryTopic :=
  { discPre := "homeassistant", comp := .NoneType, nodeId := .Empty,
    objectId := host.getD "" }

/-- `DiscoveryTopicBuilder::comp` followed by `build` (main.rs lines 171-183). -/
def DiscoveryTopic.withComp (t : DiscoveryTopic) (c : DiscoveryDevice) : DiscoveryTopic :=
  { t with comp := c }

/-- `DiscoveryPayload` from main.rs. -/
structure DiscoveryPayload where
  name : String
  device_class : String
  state_topic : String
  unit_of_measurement : String
  value_template : String
deriving DecidableEq, Repr

/-- `DiscoveryPayload::new` (main.rs lines 54-70). -/
def DiscoveryPayload.new (n dc st uom vt : String) : DiscoveryPayload :=
  { name := n, device_class := dc, state_topic := st,
    unit_of_measurement := uom, value_template := vt }

/-- Outcome of a `Display::fmt` call that may panic. -/
inductive FmtResult where
  | ok (s : String)
  | panicked (msg : String)
deriving DecidableEq, Repr

/-- The `Display` impl for `DiscoveryPayload` (main.rs lines 111-119):
`serde_json::to_string` is modelled by the oracle `ser`; when it errs the code
executes `panic!("Failed to serialize payload")`. -/
def DiscoveryPayload.fmtR (ser : DiscoveryPayload → Option String)
    (p : DiscoveryPayload) : FmtResult :=
  match ser p with
  | some s => .ok s
  | none => .panicked "Failed to serialize payload"

/-- `Discovery` from main.rs. -/
structure Discovery where
  topic : DiscoveryTopic
  payload : DiscoveryPayload

/-- `MessageBuilder::from(Discovery)` followed by `.retain(true).build()`
(main.rs lines 258-276): the topic and payload are the `Display` strings; the
payload `Display` may panic, in which case no message is produced (`none`). -/
def discoveryMessage (dser : DiscoveryPayload → Option String)
    (d : Discovery) : Option Message :=
  match DiscoveryPayload.fmtR dser d.payload with
  | .panicked _ => none
  | .ok pl => some { topic := d.topic.toStr, payload := pl, retain := true }

/-- The state topic built in `main` (main.rs line 312):
`format!("\x7b\x7d/state", topic)`. -/
def stateTopicOf (topic : String) : String := topic ++ "/state"

/-- The log line produced by `mqtt_send` (main.rs lines 278-291): the broker
client's `publish` call is external and is modelled by its result `pub`.
Either branch only logs; nothing is retried or escalated. -/
def mqttSendLog (pubRes : Except String Unit) (payload : String) : String :=
  match pubRes with
  | .error e => "Client error: " ++ e
  | .ok _ => "sending " ++ payload

/-- The fallback Reading used both on sensor read failure and as the initial
previous value of the sampling task (main.rs lines 333-345). -/
def sentinel : ChargeInfo := { percentage := 0, state := .Unknown }

/-- The candidate Reading of a tick (main.rs lines 338-345): the sensor result,
normalized to the sentinel on error. -/
def candidateOf (sensor : Except Unit ChargeInfo) : ChargeInfo :=
  match sensor with
  | .ok x => x
  | .error _ => sentinel

/-- One iteration of the sampling task body (main.rs lines 337-362), up to and
excluding the channel send: `serde_json::to_string(&value)` is modelled by the
oracle `ser` (its `Err` arm substitutes the fixed payload "parsing error").
Returns the new previous Reading and the message built for the tick (`none`
when the candidate equals the previous Reading and nothing is sent). -/
def stepTick (ser : ChargeInfo → Option String) (st : String)
    (prev : ChargeInfo) (sensor : Except Unit ChargeInfo) :
    ChargeInfo × Option Message :=
  let value := candidateOf sensor
  if value ≠ prev then
    (value, some { topic := st, payload := (ser value).getD "parsing error", retain := true })
  else
    (prev, none)

/-- Iterating the sampling task over a list of per-tick sensor results,
collecting the candidate Reading and message of every publishing tick, in
order.  `prev_info` starts at the caller-supplied `prev` and is threaded as in
the source: it is overwritten by `value` exactly on publishing ticks. -/
def runTicks (ser : ChargeInfo → Option String) (st : String) :
    ChargeInfo → List (Except Unit ChargeInfo) → ChargeInfo × List (ChargeInfo × Message)
  | prev, [] => (prev, [])
  | prev, sensor :: rest =>
    match stepTick ser st prev sensor with
    | (p2, none) => runTicks ser st p2 rest
    | (p2, some m) =>
      let r := runTicks ser st p2 rest
      (r.1, (p2, m) :: r.2)

/-- Models `tokio::sync::mpsc::Sender::send` as used at main.rs line 356, per
the tokio contract of the bounded channel created at line 314: `send` waits
for capacity when the channel is full, and returns `Err` (the value is given
back) only when the receiver half has been dropped. -/
def mpscSendFails (receiverDropped : Bool) (_full : Bool) : Bool :=
  receiverDropped

/-- Whether the `send` call at main.rs line 356 suspends awaiting capacity:
exactly when the channel is full and the receiver is still alive. -/
def mpscSendWaits (receiverDropped : Bool) (full : Bool) : Bool :=
  !receiverDropped && full

/-- The log written when the send at main.rs lines 356-358 errs. -/
def sendFailLog (receiverDropped : Bool) (full : Bool) : Option String :=
  if mpscSendFails receiverDropped full then some "receiver dropped" else none

/-- The sampling loop body including the channel send (main.rs lines 337-362):
the first component is the new `prev_info` (updated to the candidate on every
publishing tick, whether or not the send succeeded, since the assignment at
line 359 runs after the send unconditionally), the second is the message
delivered into the queue (`none` when nothing was sent or the receiver was
dropped), the third is the log line. -/
def stepTickSend (ser : ChargeInfo → Option String) (st : String)
    (receiverDropped : Bool) (prev : ChargeInfo)
    (sensor : Except Unit ChargeInfo) :
    ChargeInfo × Option Message × Option String :=
  match stepTick ser st prev sensor with
  | (p2, none) => (p2, none, none)
  | (p2, some m) =>
    if receiverDropped then (p2, none, some "receiver dropped")
    else (p2, some m, none)

/-- One iteration of the event loop at the bottom of `main` (main.rs lines
373-378): `eventloop.poll()` is modelled by its result.  Either arm only logs
(first component) and the loop continues (second component is always `true`;
there is no exit path). -/
def eventLoopStep (r : Except String Unit) : Option String × Bool :=
  match r with
  | .ok _ => (none, true)
  | .error e => (some e, true)

/-- A battery device as read in `get_charge_info`:
`state_of_charge().get::<percent>()` and `state()`. -/
structure Battery where
  percentage : ℚ
  state : State
deriving DecidableEq, Repr

/-- The device loop of `get_charge_info` (main.rs lines 297-301): each `dev?`
may err, aborting the whole read; otherwise the percentage and state are
overwritten by each successive device, the last one winning. -/
def chargeLoop : ℚ × State → List (Except Unit Battery) → Except Unit (ℚ × State)
  | acc, [] => Except.ok acc
  | _, Except.error e :: _ => Except.error e
  | _, Except.ok b :: rest => chargeLoop (b.percentage, b.state) rest

/-- `get_charge_info` (main.rs lines 293-304): `battery::Manager::new()` and
`manager.batteries()` are external fallible calls modelled by their results;
the accumulators start at `0.0` and `State::Unknown`. -/
def get_charge_info (mgr : Except Unit Unit)
    (batts : Except Unit (List (Except Unit Battery))) : Except Unit ChargeInfo :=
  match mgr with
  | .error e => .error e
  | .ok _ =>
    match batts with
    | .error e => .error e
    | .ok devs =>
      match chargeLoop (0, .Unknown) devs with
      | .error e => .error e
      | .ok ps => .ok { percentage := ps.1, state := ps.2 }

/-- A publish call of the process, tagged by its call site: the one discovery
publish issued by `home_assistant_discovery`, or a state publish issued by the
delivery task for a message drained from the channel. -/
inductive PublishEvent where
  | discovery (m : Message)
  | state (m : Message)
deriving DecidableEq, Repr

/-- The message carried by a publish event. -/
def PublishEvent.msg : PublishEvent → Message
  | .discovery m => m
  | .state m => m

/-- Whether a publish event is the discovery publish. -/
def PublishEvent.isDiscovery : PublishEvent → Bool
  | .discovery _ => true
  | .state _ => false

/-- The discovery topic and payload built in `main` (main.rs lines 320-329):
component `Sensor`, object id from the hostname, name equal to the object id,
device class "sensor", the configured state topic, unit "%", and the value
template `\x7b\x7b value_json.percentage \x7d\x7d`. -/
def discoveryOf (host : Option String) (topic : String) : Discovery :=
  let dt := (discoveryTopicNew host).withComp .Sensor
  { topic := dt,
    payload := DiscoveryPayload.new dt.objectId DiscoveryDevice.Sensor.toStr
      (stateTopicOf topic) "%" "\x7b\x7b value_json.percentage \x7d\x7d" }

/-- The sequence of publish calls `main` issues (main.rs lines 306-378), as a
function of the external inputs: the hostname lookup result, the serde_json
oracles for the discovery payload (`dser`) and for readings (`ser`), the
configured topic, and the per-tick sensor results.  Returns `none` when the
discovery payload `Display` panics (aborting the process before any publish);
otherwise the one discovery publish, awaited before the sampling task is
spawned, followed by the state publishes drained from the channel in FIFO
order.  The sampling task starts from the sentinel as `prev_info`. -/
def mainPublishes (host : Option String) (dser : DiscoveryPayload → Option String)
    (ser : ChargeInfo → Option String) (topic : String)
    (inputs : List (Except Unit ChargeInfo)) : Option (List PublishEvent) :=
  (discoveryMessage dser (discoveryOf host topic)).map
    (fun dm => PublishEvent.discovery dm ::
      ((runTicks ser (stateTopicOf topic) sentinel inputs).2.map
        (fun r => PublishEvent.state r.2)))

theorem stepTick_of_ne (ser : ChargeInfo → Option String) (st : String)
    {prev : ChargeInfo} {sensor : Except Unit ChargeInfo}
    (h : candidateOf sensor ≠ prev) :
    stepTick ser st prev sensor
      = (candidateOf sensor,
         some { topic := st, payload := (ser (candidateOf sensor)).getD "parsing error",
                retain := true }) := by
  simp [stepTick, h]

theorem stepTick_of_eq (ser : ChargeInfo → Option String) (st : String)
    {prev : ChargeInfo} {sensor : Except Unit ChargeInfo}
    (h : candidateOf sensor = prev) :
    stepTick ser st prev sensor = (prev, none) := by
  simp [stepTick, h]

theorem runTicks_cons_of_eq (ser : ChargeInfo → Option String) (st : String)
    {prev : ChargeInfo} {sensor : Except Unit ChargeInfo}
    (rest : List (Except Unit ChargeInfo)) (h : candidateOf sensor = prev) :
    runTicks ser st prev (sensor :: rest) = runTicks ser st prev rest := by
  simp [runTicks, stepTick_of_eq ser st h]

theorem runTicks_cons_of_ne (ser : ChargeInfo → Option String) (st : String)
    {prev : ChargeInfo} {sensor : Except Unit ChargeInfo}
    (rest : List (Except Unit ChargeInfo)) (h : candidateOf sensor ≠ prev) :
    runTicks ser st prev (sensor :: rest)
      = ((runTicks ser st (candidateOf sensor) rest).1,
         (candidateOf sensor,
          { topic := st, payload := (ser (candidateOf sensor)).getD "parsing error",
            retain := true }) :: (runTicks ser st (candidateOf sensor) rest).2) := by
  simp [runTicks, stepTick_of_ne ser st h]

theorem runTicks_chain (ser : ChargeInfo → Option String) (st : String) :
    ∀ (inputs : List (Except Unit ChargeInfo)) (prev : ChargeInfo),
      List.Chain' Ne (prev :: ((runTicks ser st prev inputs).2.map Prod.fst))
  | [], prev => by simp [runTicks]
  | sensor :: rest, prev => by
    by_cases h : candidateOf sensor = prev
    · rw [runTicks_cons_of_eq ser st rest h]
      exact runTicks_chain ser st rest prev
    · rw [runTicks_cons_of_ne ser st rest h]
      simp only [List.map_cons]
      exact List.chain'_cons.mpr
        ⟨Ne.symm h, runTicks_chain ser st rest (candidateOf sensor)⟩

theorem runTicks_msgs (ser : ChargeInfo → Option String) (st : String) :
    ∀ (inputs : List (Except Unit ChargeInfo)) (prev : ChargeInfo)
      (r : ChargeInfo × Message), r ∈ (runTicks ser st prev inputs).2 →
      r.2 = { topic := st, payload := (ser r.1).getD "parsing error", retain := true }
  | [], prev, r => by simp [runTicks]
  | sensor :: rest, prev, r => by
    by_cases h : candidateOf sensor = prev
    · rw [runTicks_cons_of_eq ser st rest h]
      exact runTicks_msgs ser st rest prev r
    · rw [runTicks_cons_of_ne ser st rest h]
      intro hr
      rcases List.mem_cons.mp hr with h1 | h2
      · subst h1; rfl
      · exact runTicks_msgs ser st rest (candidateOf sensor) r h2

theorem discoveryMessage_eq (dser : DiscoveryPayload → Option String) (d : Discovery) :
    discoveryMessage dser d
      = (dser d.payload).map
          (fun pl => { topic := d.topic.toStr, payload := pl, retain := true }) := by
  unfold discoveryMessage DiscoveryPayload.fmtR
  cases dser d.payload <;> rfl

/-- C1: change detection is exact field-wise inequality with strict dedup: on
every tick a state message is built iff the candidate Reading differs from the
previous one; the previous Reading becomes the candidate exactly on publishing
ticks and is left untouched otherwise; consequently the published Readings of
any run, prefixed by the initial previous value, contain no two consecutive
equal entries. -/
theorem C1_change_detection (ser : ChargeInfo → Option String) (st : String)
    (prev : ChargeInfo) (sensor : Except Unit ChargeInfo)
    (inputs : List (Except Unit ChargeInfo)) :
    ((stepTick ser st prev sensor).2.isSome ↔ candidateOf sensor ≠ prev)
    ∧ ((stepTick ser st prev sensor).1
        = if candidateOf sensor ≠ prev then candidateOf sensor else prev)
    ∧ List.Chain' Ne (prev :: ((runTicks ser st prev inputs).2.map Prod.fst)) := by
  refine ⟨?_, ?_, runTicks_chain ser st inputs prev⟩
  · by_cases h : candidateOf sensor = prev
    · simp [stepTick_of_eq ser st h, h]
    · simp [stepTick_of_ne ser st h, h]
  · by_cases h : candidateOf sensor = prev
    · simp [stepTick_of_eq ser st h, h]
    · simp [stepTick_of_ne ser st h, h]

/-- C2: on a tick where the sensor read errs, whenever a state message is
built at all, the step runs on the sentinel Reading (percentage 0, state
Unknown): the candidate is the sentinel, the new previous value is the
sentinel, and the payload serializes the sentinel. -/
theorem C2_error_sentinel (ser : ChargeInfo → Option String) (st : String)
    (prev : ChargeInfo) (h : ((stepTick ser st prev (.error ())).2).isSome) :
    stepTick ser st prev (.error ())
      = (sentinel,
         some { topic := st, payload := (ser sentinel).getD "parsing error",
                retain := true })
    ∧ candidateOf (.error ()) = sentinel := by
  have hc : candidateOf (Except.error ()) = sentinel := rfl
  by_cases hp : sentinel = prev
  · rw [stepTick_of_eq ser st (hc.trans hp)] at h
    simp at h
  · have hne : candidateOf (Except.error ()) ≠ prev := by rw [hc]; exact hp
    rw [stepTick_of_ne ser st hne, hc]
    exact ⟨rfl, rfl⟩

theorem C2_error_sentinel_witness :
    stepTick (fun _ => some "j") "t" { percentage := 1, state := .Charging } (.error ())
      = (sentinel, some { topic := "t", payload := "j", retain := true })
    ∧ candidateOf (.error ()) = sentinel :=
  C2_error_sentinel (fun _ => some "j") "t" { percentage := 1, state := .Charging }
    (by decide)

/-- C3 counterexample: with a node id present the code interpolates the node
id before the component kind, so at discovery prefix "homeassistant",
component sensor, node id "node1" and object id "myhost" the produced topic is
"homeassistant/node1/sensor/myhost/config", not the claimed
"homeassistant/sensor/node1/myhost/config". -/
theorem C3_counterexample :
    DiscoveryTopic.toStr
        { discPre := "homeassistant", comp := .Sensor, nodeId := .Is "node1",
          objectId := "myhost" }
      = "homeassistant/node1/sensor/myhost/config"
    ∧ "homeassistant/node1/sensor/myhost/config"
        ≠ "homeassistant/sensor/node1/myhost/config" :=
  ⟨rfl, by decide⟩

/-- C3 amended: with the node id absent the discovery topic is
prefix/component/object-id/config; with a node id present it is
prefix/node-id/component/object-id/config (node id BEFORE component kind); and
with prefix "homeassistant", hostname "myhost", component sensor and no node
id it is exactly "homeassistant/sensor/myhost/config". -/
theorem C3_discovery_topic_format (pre obj nid : String) (c : DiscoveryDevice) :
    DiscoveryTopic.toStr { discPre := pre, comp := c, nodeId := .Empty, objectId := obj }
      = pre ++ "/" ++ c.toStr ++ "/" ++ obj ++ "/config"
    ∧ DiscoveryTopic.toStr { discPre := pre, comp := c, nodeId := .Is nid, objectId := obj }
      = pre ++ "/" ++ nid ++ "/" ++ c.toStr ++ "/" ++ obj ++ "/config"
    ∧ DiscoveryTopic.toStr
        { discPre := "homeassistant", comp := .Sensor, nodeId := .Empty,
          objectId := "myhost" }
      = "homeassistant/sensor/myhost/config" :=
  ⟨rfl, rfl, rfl⟩

/-- C4: every publish event of a run (the discovery publish and every state
publish) carries retain = true, and exactly one event of the run is the
discovery publish. -/
theorem C4_retain_and_single_discovery (host : Option String)
    (dser : DiscoveryPayload → Option String) (ser : ChargeInfo → Option String)
    (topic : String) (inputs : List (Except Unit ChargeInfo))
    (evs : List PublishEvent)
    (h : mainPublishes host dser ser topic inputs = some evs) :
    (∀ e ∈ evs, (PublishEvent.msg e).retain = true)
    ∧ evs.countP PublishEvent.isDiscovery = 1 := by
  unfold mainPublishes at h
  obtain ⟨dm, hdm, rfl⟩ := Option.map_eq_some'.mp h
  have hret : dm.retain = true := by
    rw [discoveryMessage_eq] at hdm
    obtain ⟨pl, _, rfl⟩ := Option.map_eq_some'.mp hdm
    rfl
  constructor
  · intro e he
    rcases List.mem_cons.mp he with rfl | hmem
    · exact hret
    · obtain ⟨r, hr, rfl⟩ := List.mem_map.mp hmem
      have hm := runTicks_msgs ser (stateTopicOf topic) inputs sentinel r hr
      show r.2.retain = true
      rw [hm]
  · have h0 : List.countP PublishEvent.isDiscovery
        (List.map (fun r => PublishEvent.state r.2)
          (runTicks ser (stateTopicOf topic) sentinel inputs).2) = 0 := by
      rw [List.countP_eq_zero]
      intro e he
      obtain ⟨r, _, rfl⟩ := List.mem_map.mp he
      simp [PublishEvent.isDiscovery]
    simp [List.countP_cons, h0, PublishEvent.isDiscovery]

theorem C4_witness :
    (∀ e ∈ ([PublishEvent.discovery
               { topic := "homeassistant/sensor/h/config", payload := "d", retain := true },
             PublishEvent.state
               { topic := "t/state", payload := "s", retain := true }] : List PublishEvent),
        (PublishEvent.msg e).retain = true)
    ∧ ([PublishEvent.discovery
          { topic := "homeassistant/sensor/h/config", payload := "d", retain := true },
        PublishEvent.state
          { topic := "t/state", payload := "s", retain := true }] : List PublishEvent).countP
        PublishEvent.isDiscovery = 1 :=
  C4_retain_and_single_discovery (some "h") (fun _ => some "d") (fun _ => some "s") "t"
    [.ok { percentage := 50, state := .Charging }] _ (by decide)

/-- C5: the discovery publish happens exactly once per run and precedes every
state publish: the run's event list is the discovery event followed by a tail
containing no discovery event. -/
theorem C5_discovery_once_first (host : Option String)
    (dser : DiscoveryPayload → Option String) (ser : ChargeInfo → Option String)
    (topic : String) (inputs : List (Except Unit ChargeInfo))
    (evs : List PublishEvent)
    (h : mainPublishes host dser ser topic inputs = some evs) :
    ∃ dm rest, evs = PublishEvent.discovery dm :: rest
      ∧ ∀ e ∈ rest, e.isDiscovery = false := by
  unfold mainPublishes at h
  obtain ⟨dm, _, rfl⟩ := Option.map_eq_some'.mp h
  refine ⟨dm, _, rfl, ?_⟩
  intro e he
  obtain ⟨r, _, rfl⟩ := List.mem_map.mp he
  rfl

theorem C5_witness :
    ∃ dm rest,
      ([PublishEvent.discovery
          { topic := "homeassistant/sensor/x/config", payload := "dp", retain := true },
        PublishEvent.state
          { topic := "p/state", payload := "sp", retain := true }] : List PublishEvent)
        = PublishEvent.discovery dm :: rest
      ∧ ∀ e ∈ rest, e.isDiscovery = false :=
  C5_discovery_once_first (some "x") (fun _ => some "dp") (fun _ => some "sp") "p"
    [.ok { percentage := 42, state := .Discharging }] _ (by decide)

/-- C6 counterexample: with the receiver alive and the queue full, the channel
send of the sampling task does not fail (there is no queue-full error) and it
does suspend awaiting capacity, contrary to the claim that a full queue makes
the enqueue fail without blocking. -/
theorem C6_counterexample :
    mpscSendFails false true = false ∧ mpscSendWaits false true = true := by
  decide

/-- C6 amended: the enqueue attempt fails exactly when the receiver half has
been dropped — a merely full queue instead makes the sampling task wait for
capacity; on failure "receiver dropped" is logged and the Reading is dropped
and never retried: the previous Reading is advanced to the candidate even
though nothing was delivered, so the same Reading is not re-attempted. -/
theorem C6_send_failure_semantics (ser : ChargeInfo → Option String) (st : String)
    (prev : ChargeInfo) (sensor : Except Unit ChargeInfo) (dropped full : Bool) :
    mpscSendFails dropped full = dropped
    ∧ mpscSendWaits dropped full = (!dropped && full)
    ∧ sendFailLog true full = some "receiver dropped"
    ∧ stepTickSend ser st true prev sensor
        = ((stepTick ser st prev sensor).1, none,
           if (stepTick ser st prev sensor).2.isSome
           then some "receiver dropped" else none) := by
  refine ⟨rfl, rfl, rfl, ?_⟩
  by_cases h : candidateOf sensor = prev
  · simp [stepTickSend, stepTick_of_eq ser st h]
  · simp [stepTickSend, stepTick_of_ne ser st h]

/-- C7: when a publication is warranted for a tick and serialization of the
Reading fails, the fixed payload "parsing error" is enqueued for that tick, so
the publication is not suppressed. -/
theorem C7_parsing_error_fallback (ser : ChargeInfo → Option String) (st : String)
    (prev : ChargeInfo) (sensor : Except Unit ChargeInfo)
    (hne : candidateOf sensor ≠ prev) (hser : ser (candidateOf sensor) = none) :
    (stepTick ser st prev sensor).2
      = some { topic := st, payload := "parsing error", retain := true } := by
  rw [stepTick_of_ne ser st hne]
  simp [hser]

theorem C7_witness :
    (stepTick (fun _ => (none : Option String)) "bt/state" sentinel
        (.ok { percentage := 50, state := .Charging })).2
      = some { topic := "bt/state", payload := "parsing error", retain := true } :=
  C7_parsing_error_fallback (fun _ => none) "bt/state" sentinel
    (.ok { percentage := 50, state := .Charging }) (by decide) rfl

/-- C8 counterexample: the discovery-payload serialization failure branch is
not recovered or merely logged — the Display impl panics with "Failed to
serialize payload", so not every failure branch avoids panicking. -/
theorem C8_counterexample :
    DiscoveryPayload.fmtR (fun _ => none)
        (DiscoveryPayload.new "h" "sensor" "t/state" "%" "v")
      = FmtResult.panicked "Failed to serialize payload" :=
  rfl

/-- C8 amended: every failure branch other than discovery-payload
serialization is recovered or logged without panicking or exiting — a sensor
read error is normalized to the sentinel, a failing Reading serialization
still publishes "parsing error", a publish error and a send error are only
logged, an event-loop poll error is logged and the loop continues, a hostname
lookup failure falls back to an empty object id — and the discovery Display is
panic-free whenever its serialization succeeds. -/
theorem C8_nonfatal_branches (st s e pay : String) (prev : ChargeInfo)
    (sensor : Except Unit ChargeInfo) (p : DiscoveryPayload) (full : Bool) :
    candidateOf (.error ()) = sentinel
    ∧ (stepTick (fun _ => (none : Option String)) st prev sensor).2
        = (if candidateOf sensor ≠ prev
           then some { topic := st, payload := "parsing error", retain := true }
           else none)
    ∧ mqttSendLog (.error e) pay = "Client error: " ++ e
    ∧ sendFailLog true full = some "receiver dropped"
    ∧ (eventLoopStep (.error e)).2 = true
    ∧ (discoveryTopicNew none).objectId = ""
    ∧ DiscoveryPayload.fmtR (fun _ => some s) p = .ok s := by
  refine ⟨rfl, ?_, rfl, rfl, rfl, rfl, rfl⟩
  by_cases h : candidateOf sensor = prev
  · simp [stepTick_of_eq (fun _ => (none : Option String)) st h, h]
  · simp [stepTick_of_ne (fun _ => (none : Option String)) st h, h]

/-- C9: the state topic is exactly the configured topic prefix followed by
"/state"; concretely for "battery-daemon/status/battery" it is exactly
"battery-daemon/status/battery/state". -/
theorem C9_state_topic (pre : String) :
    stateTopicOf pre = pre ++ "/state"
    ∧ stateTopicOf "battery-daemon/status/battery"
        = "battery-daemon/status/battery/state" :=
  ⟨rfl, rfl⟩

theorem runTicks_sentinel_replicate (ser : ChargeInfo → Option String) (st : String) :
    ∀ n : Nat, (runTicks ser st sentinel (List.replicate n (Except.ok sentinel))).2 = []
  | 0 => rfl
  | n + 1 => by
    rw [List.replicate_succ,
      runTicks_cons_of_eq ser st (List.replicate n (Except.ok sentinel))
        (show candidateOf (Except.ok sentinel) = sentinel from rfl)]
    exact runTicks_sentinel_replicate ser st n

/-- C10: with an empty battery enumeration the sensor read succeeds and
returns exactly the sentinel Reading, which equals the error fallback
candidate and the initial previous Reading; hence starting from the sentinel,
any number of such ticks enqueues no state message. -/
theorem C10_empty_enumeration (ser : ChargeInfo → Option String) (st : String)
    (n : Nat) :
    get_charge_info (.ok ()) (.ok []) = .ok sentinel
    ∧ candidateOf (get_charge_info (.ok ()) (.ok [])) = candidateOf (.error ())
    ∧ (runTicks ser st sentinel
        (List.replicate n (get_charge_info (.ok ()) (.ok [])))).2 = [] := by
  exact ⟨rfl, rfl, runTicks_sentinel_replicate ser st n⟩
